import Mathlib

/-!
Shallow embedding of the document-upload pipeline (`config.py`,
`document_upload.py`) of the gsu-ai repository, together with proofs of the
behavioural properties stated in the specification.

Modelling conventions:
* Python `Dict[str, Any]` values are association lists `List (String × Val)`
  looked up with `dget`; `Val` covers the value shapes the code actually
  stores (strings, booleans, naturals for byte sizes, and Python `None`).
* All interaction with the outside world (filesystem metadata, the
  `mimetypes` table, the S3 client, the PostgreSQL connection, `uuid.uuid4()`
  draws, `datetime.utcnow()`) is supplied by an explicit environment `Env`.
  An exception raised by a collaborator is an ordinary `Env` outcome
  (`S3Outcome.clientError` / `S3Outcome.otherError` for `boto3`,
  `DbOutcome.connectError` / `DbOutcome.execError` for `psycopg2`), so the
  theorems below quantify over every raising behaviour of the collaborators.
* Side-effecting calls additionally return the list of external `Event`s
  they perform, in order, so that claims of the form "X is never invoked"
  or "Y is invoked exactly once" are statements about the returned trace.
-/

/-- Python values stored in the dictionaries the code builds.  `Val.null`
models Python `None`. -/
inductive Val where
  | str (s : String)
  | bool (b : Bool)
  | nat (n : Nat)
  | null
deriving DecidableEq

/-- A Python `Dict[str, Any]` as built by the code: an association list. -/
abbrev Dict := List (String × Val)

/-- Dictionary lookup, `d[k]` as a total function (`some` iff the key is
present; every access the orchestrated code performs is on a present key). -/
def dget (d : Dict) (k : String) : Option Val :=
  match d with
  | [] => Option.none
  | (k', v) :: rest => if k' = k then some v else dget rest k

/-- Rendering applied by a Python f-string to an interpolated value
(`str()`); the code only ever interpolates strings. -/
def Val.pyStr : Val → String
  | .str s => s
  | .bool b => if b then "True" else "False"
  | .nat n => toString n
  | .null => "None"

/-! ### Python string primitives

The claims are settled by evaluating the model on concrete inputs inside the
kernel, so the string operations the code uses are embedded as structural
recursion over character lists (the library versions are extensionally the
same but do not reduce definitionally). -/

/-- `str.split(sep)` for a one-character separator, on character lists. -/
def splitChar (sep : Char) : List Char → List (List Char)
  | [] => [[]]
  | c :: cs =>
    if c = sep then [] :: splitChar sep cs
    else
      match splitChar sep cs with
      | [] => [[c]]
      | h :: t => (c :: h) :: t

/-- Python `s.split(sep)` for a one-character separator (the code only
splits on `','` and `'/'`). -/
def pySplit (sep : Char) (s : String) : List String :=
  (splitChar sep s.data).map String.mk

/-- ASCII lowercasing of one character. -/
def lowerChar (c : Char) : Char :=
  if 'A' ≤ c ∧ c ≤ 'Z' then Char.ofNat (c.toNat + 32) else c

/-- Python `s.lower()` (the strings the code lowercases are ASCII). -/
def pyLower (s : String) : String := String.mk (s.data.map lowerChar)

/-- Whether the path string is absolute (`s.startswith('/')`). -/
def startsWithSlash (p : String) : Bool :=
  match p.data with
  | '/' :: _ => true
  | _ => false

/-! ### `pathlib` semantics

`validate_file` converts its argument with `Path(file_path)` and then uses
`.exists()`, `.suffix`, `.stat().st_size`, `.name` and `str(...)`.  We embed
the POSIX `pathlib` name/suffix/str computations on the raw string. -/

/-- The components of `Path(p)`: split on `/`, dropping empty components and
`.` components (this is how `pathlib` normalises a POSIX path; `..` is kept). -/
def pathParts (p : String) : List String :=
  (pySplit '/' p).filter (fun s => !(s == "" || s == "."))

/-- `Path(p).name`: the final path component (empty for the root or the
current directory). -/
def pathName (p : String) : String :=
  ((pathParts p).getLast?).getD ""

/-- Index of the last `.` in a list of characters (`str.rfind`), if any. -/
def lastIndexOfDot (cs : List Char) : Option Nat :=
  (((cs.enum).filter (fun x => x.2 == '.')).getLast?).map (fun x => x.1)

/-- `Path(p).suffix`: the part of the name from its last dot, empty when the
last dot is leading or trailing (CPython: `0 < i < len(name) - 1`). -/
def pathSuffix (p : String) : String :=
  let nm := pathName p
  let cs := nm.data
  match lastIndexOfDot cs with
  | Option.none => ""
  | some i => if 0 < i ∧ i < cs.length - 1 then String.mk (cs.drop i) else ""

/-- `str(Path(p))`: components re-joined, with the leading `/` kept for an
absolute path and `.` for an empty path. -/
def pyPathStr (p : String) : String :=
  let j := String.intercalate "/" (pathParts p)
  if startsWithSlash p then "/" ++ j
  else if j = "" then "." else j

/-! ### Configuration (`config.py`) -/

/-- The configuration values the upload pipeline reads.  Environment-variable
reading is abstracted: `SUPPORTED_EXTENSIONS_raw` is the string value of the
`SUPPORTED_EXTENSIONS` variable (`Option.none` when the variable is unset, in
which case `os.getenv` supplies the default `".pdf,.doc,.docx"`);
`MAX_FILE_SIZE`, `S3_BUCKET_NAME` and `AWS_REGION` are the already-parsed
values. -/
structure Config where
  SUPPORTED_EXTENSIONS_raw : Option String
  MAX_FILE_SIZE : Nat
  S3_BUCKET_NAME : String
  AWS_REGION : String

/-- `Config.SUPPORTED_EXTENSIONS = os.getenv('SUPPORTED_EXTENSIONS',
'.pdf,.doc,.docx').split(',')` — one verbatim `split` on commas, with no
further normalisation of the entries. -/
def Config.SUPPORTED_EXTENSIONS (c : Config) : List String :=
  pySplit ',' (c.SUPPORTED_EXTENSIONS_raw.getD ".pdf,.doc,.docx")

/-! ### The external world -/

/-- What the filesystem reports about an existing path: whether a regular
file (as opposed to a directory or other non-regular entry) is there, and
`stat().st_size`. -/
structure Entry where
  isRegularFile : Bool
  st_size : Nat
deriving DecidableEq

/-- Outcome of one `s3_client.upload_file` call: normal return, a raised
`botocore` `ClientError`, or any other raised exception (`str(e)` is the
carried message). -/
inductive S3Outcome where
  | ok
  | clientError (msg : String)
  | otherError (msg : String)
deriving DecidableEq

/-- Outcome of the database interaction inside `save_to_database`:
`connectError` models an exception raised by `psycopg2.connect` (before any
INSERT is attempted), `execError` an exception raised at or after
`cursor.execute` (the INSERT was attempted), `ok` a normal run. -/
inductive DbOutcome where
  | ok
  | connectError (msg : String)
  | execError (msg : String)
deriving DecidableEq

/-- The message the caught exception would carry, when the outcome is a
failure. -/
def DbOutcome.errMsg : DbOutcome → Option String
  | .ok => Option.none
  | .connectError m => some m
  | .execError m => some m

/-- The error string `upload_to_s3` stores for a failing outcome (the
`ClientError` branch and the generic `Exception` branch use different
prefixes). -/
def S3Outcome.errStr : S3Outcome → Option String
  | .ok => Option.none
  | .clientError m => some ("S3 upload error: " ++ m)
  | .otherError m => some ("Upload error: " ++ m)

/-- The metadata row handed to `cursor.execute` in `save_to_database`,
field for field (the `%s` parameters of the INSERT, in order). -/
structure DocumentRecord where
  document_id : String
  user_id : String
  file_name : Val
  file_extension : Val
  file_size : Val
  mime_type : Val
  s3_url : String
  upload_date : String
  status : String
deriving DecidableEq

/-- Externally observable calls made by one upload invocation.  `s3Delete`
would be an `s3_client.delete_object` call; the constructor exists so that
"delete is invoked n times" is expressible about the trace. -/
inductive Event where
  | s3Put (file_path file_name : String)
  | s3Delete (key : String)
  | dbInsert (record : DocumentRecord)
deriving DecidableEq

def isPut : Event → Bool
  | .s3Put _ _ => true
  | _ => false

def isDelete : Event → Bool
  | .s3Delete _ => true
  | _ => false

def isInsert : Event → Bool
  | .dbInsert _ => true
  | _ => false

/-- One upload invocation's external environment: a consistent filesystem
snapshot (`fs p = none` iff nothing exists at normalised path `p`), the
`mimetypes.guess_type` table, the S3 and database outcomes, the two
`str(uuid.uuid4())` draws in the order the code makes them (`uuidKey` at the
key-generation step, `uuidDoc` inside `save_to_database`), and the rendered
`datetime.utcnow()`. -/
structure Env where
  fs : String → Option Entry
  guessMime : String → Option String
  s3Upload : String → String → S3Outcome
  db : DbOutcome
  uuidKey : String
  uuidDoc : String
  now : String

/-! ### Error message strings -/

def notFoundMsg : String := "File does not exist"

/-- `f'Unsupported file format. Supported formats: {", ".join(self.supported_extensions)}'`.
`self.supported_extensions` is `set(config.SUPPORTED_EXTENSIONS)`; we render
the set in first-occurrence order (CPython's set iteration order is
unspecified; no claim depends on the order of this listing). -/
def unsupportedMsg (exts : List String) : String :=
  "Unsupported file format. Supported formats: " ++ String.intercalate ", " exts.dedup

/-- Digits of `n / (1024*1024)` under a `:.0f` format.  The exact float
rounding is abstracted by natural division: no claim inspects these digits,
only that the message is non-empty and distinct from the other messages. -/
def mbStr0 (n : Nat) : String := toString (n / (1024 * 1024))

/-- Digits of `n / (1024*1024)` under a `:.2f` format, same abstraction. -/
def mbStr2 (n : Nat) : String :=
  let f := (n * 100 / (1024 * 1024)) % 100
  toString (n / (1024 * 1024)) ++ "." ++ (if f < 10 then "0" else "") ++ toString f

/-- `f'File too large. Maximum size: {..:.0f}MB, Current size: {..:.2f}MB'`. -/
def tooLargeMsg (maxSize size : Nat) : String :=
  "File too large. Maximum size: " ++ mbStr0 maxSize ++ "MB, Current size: "
    ++ mbStr2 size ++ "MB"

/-- Store a `guess_type` result: a resolved type as a string, `None` as
`Val.null`. -/
def optStrVal : Option String → Val
  | some s => Val.str s
  | Option.none => Val.null

/-- Whether a string starts with a literal dot (used only by the spec-side
allow-set below). -/
def startsWithDot (s : String) : Bool :=
  match s.data with
  | '.' :: _ => true
  | _ => false

/-- The allow-set as claim C6 of the specification describes it: the
comma-separated `SUPPORTED_EXTENSIONS` value "with each entry normalized to
lowercase with a leading separator".  This is a spec-side definition, written
from the specification's words, used only to compare the specified allow-set
with the one the code actually builds (`Config.SUPPORTED_EXTENSIONS`). -/
def claimAllowSet (c : Config) : List String :=
  (pySplit ',' (c.SUPPORTED_EXTENSIONS_raw.getD ".pdf,.doc,.docx")).map
    (fun s => let t := pyLower s; if startsWithDot t then t else "." ++ t)

/-! ### `DocumentUploader.validate_file` -/

/-- `validate_file(self, file_path)`.  The code wraps its body in
`try/except`; within this model no statement of the body raises (the
filesystem snapshot is consistent), so the `except` branch is unreachable
and the function is the chain of checks: existence (`Path.exists()` — note
this is `exists`, not `is_file`, so `Entry.isRegularFile` is never
consulted), extension membership, size, then the success dictionary. -/
def validate_file (env : Env) (cfg : Config) (file_path : String) : Dict :=
  match env.fs (pyPathStr file_path) with
  | Option.none =>
      [("valid", Val.bool false), ("error", Val.str notFoundMsg)]
  | some st =>
      let file_extension := pyLower (pathSuffix file_path)
      if file_extension ∉ cfg.SUPPORTED_EXTENSIONS then
        [("valid", Val.bool false),
         ("error", Val.str (unsupportedMsg cfg.SUPPORTED_EXTENSIONS))]
      else if st.st_size > cfg.MAX_FILE_SIZE then
        [("valid", Val.bool false),
         ("error", Val.str (tooLargeMsg cfg.MAX_FILE_SIZE st.st_size))]
      else
        [("valid", Val.bool true),
         ("file_name", Val.str (pathName file_path)),
         ("file_extension", Val.str file_extension),
         ("file_size", Val.nat st.st_size),
         ("mime_type", optStrVal (env.guessMime (pyPathStr file_path))),
         ("file_path", Val.str (pyPathStr file_path))]

/-! ### `DocumentUploader.upload_to_s3` -/

/-- The URL string interpolated on success:
`f"https://{bucket}.s3.{region}.amazonaws.com/{file_name}"`. -/
def s3UrlOf (cfg : Config) (file_name : String) : String :=
  "https://" ++ cfg.S3_BUCKET_NAME ++ ".s3." ++ cfg.AWS_REGION
    ++ ".amazonaws.com/" ++ file_name

/-- `upload_to_s3(self, file_path, file_name)`: invoke the S3 client (the
`s3Put` event), then return the success dictionary, or the `ClientError`
dictionary, or the generic `Exception` dictionary. -/
def upload_to_s3 (env : Env) (cfg : Config) (file_path file_name : String) :
    Dict × List Event :=
  let events := [Event.s3Put file_path file_name]
  match env.s3Upload file_path file_name with
  | S3Outcome.ok =>
      ([("success", Val.bool true),
        ("s3_url", Val.str (s3UrlOf cfg file_name)),
        ("s3_key", Val.str file_name)], events)
  | S3Outcome.clientError m =>
      ([("success", Val.bool false),
        ("error", Val.str ("S3 upload error: " ++ m))], events)
  | S3Outcome.otherError m =>
      ([("success", Val.bool false),
        ("error", Val.str ("Upload error: " ++ m))], events)

/-! ### `DocumentUploader.save_to_database` -/

/-- The tuple passed to `cursor.execute` (a missing metadata key would raise
`KeyError`, caught by the function's `except` as a database error; every
dictionary the orchestrator passes carries all four keys, so the `getD`
defaults are never exercised in the claims below). -/
def mkRecord (env : Env) (file_metadata : Dict) (s3_url user_id : String) :
    DocumentRecord :=
  { document_id := env.uuidDoc
    user_id := user_id
    file_name := (dget file_metadata "file_name").getD Val.null
    file_extension := (dget file_metadata "file_extension").getD Val.null
    file_size := (dget file_metadata "file_size").getD Val.null
    mime_type := (dget file_metadata "mime_type").getD Val.null
    s3_url := s3_url
    upload_date := env.now
    status := "uploaded" }

/-- `save_to_database(self, file_metadata, s3_url, user_id)`.  On a
connection failure no INSERT is attempted; otherwise the INSERT is executed
(the `dbInsert` event).  On the normal path the `RETURNING document_id`
row returned by `fetchone()` carries the very `document_id` value that was
inserted, so the success dictionary reports `env.uuidDoc`. -/
def save_to_database (env : Env) (file_metadata : Dict) (s3_url user_id : String) :
    Dict × List Event :=
  match env.db with
  | DbOutcome.connectError m =>
      ([("success", Val.bool false),
        ("error", Val.str ("Database error: " ++ m))], [])
  | DbOutcome.execError m =>
      ([("success", Val.bool false),
        ("error", Val.str ("Database error: " ++ m))],
       [Event.dbInsert (mkRecord env file_metadata s3_url user_id)])
  | DbOutcome.ok =>
      ([("success", Val.bool true),
        ("document_id", Val.str env.uuidDoc),
        ("message", Val.str "Document metadata saved successfully")],
       [Event.dbInsert (mkRecord env file_metadata s3_url user_id)])

/-! ### `DocumentUploader.upload_document` -/

/-- Step 2 of `upload_document`: the S3 object key
`f"{uuid.uuid4()}{file_extension}"`, with `file_extension` read from the
validation dictionary. -/
def generated_key (env : Env) (cfg : Config) (file_path : String) : String :=
  env.uuidKey
    ++ (((dget (validate_file env cfg file_path) "file_extension").getD Val.null).pyStr)

/-- `upload_document(self, file_path, user_id)`: validate, generate the key,
upload to S3, save the metadata, composing the returned dictionaries exactly
as the code does.  `if not validation_result['valid']` and the two
`if not ...['success']` tests are truthiness tests on values this code always
stores as booleans, embedded as a comparison with `Val.bool true`.  The outer
`try/except` catches exceptions raised by the collaborators; those are
already returned as failure dictionaries by the inner functions, so no
branch of this model raises. -/
def upload_document (env : Env) (cfg : Config) (file_path user_id : String) :
    Dict × List Event :=
  let validation_result := validate_file env cfg file_path
  if (dget validation_result "valid").getD Val.null ≠ Val.bool true then
    ([("success", Val.bool false),
      ("error", (dget validation_result "error").getD Val.null)], [])
  else
    let unique_name := generated_key env cfg file_path
    let s3res := upload_to_s3 env cfg file_path unique_name
    if (dget s3res.1 "success").getD Val.null ≠ Val.bool true then
      ([("success", Val.bool false),
        ("error", (dget s3res.1 "error").getD Val.null)], s3res.2)
    else
      let s3_url := ((dget s3res.1 "s3_url").getD Val.null).pyStr
      let dbres := save_to_database env validation_result s3_url user_id
      if (dget dbres.1 "success").getD Val.null ≠ Val.bool true then
        ([("success", Val.bool false),
          ("error", (dget dbres.1 "error").getD Val.null)], s3res.2 ++ dbres.2)
      else
        ([("success", Val.bool true),
          ("document_id", (dget dbres.1 "document_id").getD Val.null),
          ("file_name", (dget validation_result "file_name").getD Val.null),
          ("s3_url", (dget s3res.1 "s3_url").getD Val.null),
          ("message", Val.str "Document uploaded successfully")],
         s3res.2 ++ dbres.2)

/-! ### Concrete fixtures

A default configuration and a small filesystem snapshot used to instantiate
the theorems below on concrete inputs. -/

/-- The default configuration of `config.py`: no `SUPPORTED_EXTENSIONS`
override, 50 MB maximum, default bucket and region. -/
def cfgD : Config :=
  { SUPPORTED_EXTENSIONS_raw := Option.none
    MAX_FILE_SIZE := 52428800
    S3_BUCKET_NAME := "syllabus-documents"
    AWS_REGION := "us-east-1" }

/-- A configuration whose `SUPPORTED_EXTENSIONS` environment variable is the
upper-case string `.PDF`. -/
def cfgUpper : Config :=
  { cfgD with SUPPORTED_EXTENSIONS_raw := some ".PDF" }

/-- A filesystem snapshot: a small pdf, a pdf one byte over the size limit,
a pdf exactly at the limit, and a directory whose name ends in `.pdf`. -/
def fsD : String → Option Entry := fun p =>
  if p = "docs/a.pdf" then some { isRegularFile := true, st_size := 1024 }
  else if p = "docs/big.pdf" then some { isRegularFile := true, st_size := 52428801 }
  else if p = "docs/max.pdf" then some { isRegularFile := true, st_size := 52428800 }
  else if p = "adir.pdf" then some { isRegularFile := false, st_size := 4096 }
  else Option.none

/-- Happy-path environment: S3 and the database both succeed. -/
def envD : Env :=
  { fs := fsD
    guessMime := fun _ => some "application/pdf"
    s3Upload := fun _ _ => S3Outcome.ok
    db := DbOutcome.ok
    uuidKey := "11111111-2222-3333-4444-555555555555"
    uuidDoc := "66666666-7777-8888-9999-000000000000"
    now := "2026-01-01 00:00:00" }

/-- Environment in which the S3 upload raises a `ClientError`. -/
def envS3Fail : Env :=
  { envD with s3Upload := fun _ _ => S3Outcome.clientError "AccessDenied" }

/-- Environment in which the S3 upload succeeds and `cursor.execute` raises. -/
def envDbFail : Env :=
  { envD with db := DbOutcome.execError "duplicate key" }

/-! ### Helper lemmas -/

theorem append_length_le (a b : String) : a.length ≤ (a ++ b).length := by
  rw [String.length_append]
  omega

theorem append_ne_empty (a b : String) (h : 0 < a.length) : a ++ b ≠ "" := by
  intro he
  have hl : (a ++ b).length = 0 := by rw [he]; rfl
  rw [String.length_append] at hl
  omega

theorem unsupportedMsg_length (exts : List String) :
    44 ≤ (unsupportedMsg exts).length := by
  unfold unsupportedMsg
  rw [String.length_append]
  have h5 : ("Unsupported file format. Supported formats: " : String).length = 44 := by
    decide
  omega

theorem tooLargeMsg_length (m s : Nat) : 30 ≤ (tooLargeMsg m s).length := by
  have h1 := append_length_le
    ("File too large. Maximum size: " ++ mbStr0 m ++ "MB, Current size: " ++ mbStr2 s) "MB"
  have h2 := append_length_le
    ("File too large. Maximum size: " ++ mbStr0 m ++ "MB, Current size: ") (mbStr2 s)
  have h3 := append_length_le ("File too large. Maximum size: " ++ mbStr0 m) "MB, Current size: "
  have h4 := append_length_le "File too large. Maximum size: " (mbStr0 m)
  have h5 : ("File too large. Maximum size: " : String).length = 30 := by decide
  unfold tooLargeMsg
  omega

theorem unsupportedMsg_ne_notFound (exts : List String) :
    unsupportedMsg exts ≠ notFoundMsg := by
  intro h
  have h1 := unsupportedMsg_length exts
  rw [h] at h1
  revert h1
  decide

theorem tooLargeMsg_ne_notFound (m s : Nat) : tooLargeMsg m s ≠ notFoundMsg := by
  intro h
  have h1 := tooLargeMsg_length m s
  rw [h] at h1
  revert h1
  decide

theorem unsupportedMsg_ne_empty (exts : List String) : unsupportedMsg exts ≠ "" := by
  intro h
  have h1 := unsupportedMsg_length exts
  rw [h] at h1
  revert h1
  decide

theorem tooLargeMsg_ne_empty (m s : Nat) : tooLargeMsg m s ≠ "" := by
  intro h
  have h1 := tooLargeMsg_length m s
  rw [h] at h1
  revert h1
  decide

theorem s3UrlOf_ne_empty (cfg : Config) (k : String) : s3UrlOf cfg k ≠ "" := by
  unfold s3UrlOf
  apply append_ne_empty
  have h1 := append_length_le ("https://" ++ cfg.S3_BUCKET_NAME ++ ".s3." ++ cfg.AWS_REGION)
    ".amazonaws.com/"
  have h2 := append_length_le ("https://" ++ cfg.S3_BUCKET_NAME ++ ".s3.") cfg.AWS_REGION
  have h3 := append_length_le ("https://" ++ cfg.S3_BUCKET_NAME) ".s3."
  have h4 := append_length_le "https://" cfg.S3_BUCKET_NAME
  have h5 : ("https://" : String).length = 8 := by decide
  omega

/-- The four possible outcomes of `validate_file`, with the conditions that
select each. -/
theorem validate_file_cases (env : Env) (cfg : Config) (p : String) :
    (env.fs (pyPathStr p) = Option.none
      ∧ validate_file env cfg p
          = [("valid", Val.bool false), ("error", Val.str notFoundMsg)])
    ∨ (∃ st, env.fs (pyPathStr p) = some st
      ∧ pyLower (pathSuffix p) ∉ cfg.SUPPORTED_EXTENSIONS
      ∧ validate_file env cfg p
          = [("valid", Val.bool false),
             ("error", Val.str (unsupportedMsg cfg.SUPPORTED_EXTENSIONS))])
    ∨ (∃ st, env.fs (pyPathStr p) = some st
      ∧ pyLower (pathSuffix p) ∈ cfg.SUPPORTED_EXTENSIONS
      ∧ cfg.MAX_FILE_SIZE < st.st_size
      ∧ validate_file env cfg p
          = [("valid", Val.bool false),
             ("error", Val.str (tooLargeMsg cfg.MAX_FILE_SIZE st.st_size))])
    ∨ (∃ st, env.fs (pyPathStr p) = some st
      ∧ pyLower (pathSuffix p) ∈ cfg.SUPPORTED_EXTENSIONS
      ∧ st.st_size ≤ cfg.MAX_FILE_SIZE
      ∧ validate_file env cfg p
          = [("valid", Val.bool true),
             ("file_name", Val.str (pathName p)),
             ("file_extension", Val.str (pyLower (pathSuffix p))),
             ("file_size", Val.nat st.st_size),
             ("mime_type", optStrVal (env.guessMime (pyPathStr p))),
             ("file_path", Val.str (pyPathStr p))]) := by
  cases hfs : env.fs (pyPathStr p) with
  | none =>
    left
    refine ⟨rfl, ?_⟩
    unfold validate_file
    rw [hfs]
  | some st =>
    by_cases hext : pyLower (pathSuffix p) ∈ cfg.SUPPORTED_EXTENSIONS
    · by_cases hsz : st.st_size > cfg.MAX_FILE_SIZE
      · right; right; left
        refine ⟨st, rfl, hext, hsz, ?_⟩
        unfold validate_file
        rw [hfs]
        simp [hext, hsz]
      · right; right; right
        refine ⟨st, rfl, hext, Nat.not_lt.mp hsz, ?_⟩
        unfold validate_file
        rw [hfs]
        simp [hext, hsz]
    · right; left
      refine ⟨st, rfl, hext, ?_⟩
      unfold validate_file
      rw [hfs]
      simp [hext]

theorem validate_file_success (env : Env) (cfg : Config) (p : String) (st : Entry)
    (hfs : env.fs (pyPathStr p) = some st)
    (hext : pyLower (pathSuffix p) ∈ cfg.SUPPORTED_EXTENSIONS)
    (hsize : st.st_size ≤ cfg.MAX_FILE_SIZE) :
    validate_file env cfg p
      = [("valid", Val.bool true),
         ("file_name", Val.str (pathName p)),
         ("file_extension", Val.str (pyLower (pathSuffix p))),
         ("file_size", Val.nat st.st_size),
         ("mime_type", optStrVal (env.guessMime (pyPathStr p))),
         ("file_path", Val.str (pyPathStr p))] := by
  unfold validate_file
  rw [hfs]
  simp [hext, Nat.not_lt.mpr hsize]

theorem generated_key_of_success (env : Env) (cfg : Config) (p : String) (st : Entry)
    (hfs : env.fs (pyPathStr p) = some st)
    (hext : pyLower (pathSuffix p) ∈ cfg.SUPPORTED_EXTENSIONS)
    (hsize : st.st_size ≤ cfg.MAX_FILE_SIZE) :
    generated_key env cfg p = env.uuidKey ++ pyLower (pathSuffix p) := by
  unfold generated_key
  rw [validate_file_success env cfg p st hfs hext hsize]
  simp [dget, Val.pyStr]

/-- C10: `upload_document` and `validate_file` are total: for every
environment — including every exception-raising behaviour of the S3 client
and of the database driver, which the environment models as failure
outcomes — each call returns a dictionary carrying a boolean `success`
(resp. `valid`) key, never a propagated exception. -/
theorem c10_total_boolean_result (env : Env) (cfg : Config) (p u : String) :
    (∃ b, dget (upload_document env cfg p u).1 "success" = some (Val.bool b))
    ∧ (∃ b, dget (validate_file env cfg p) "valid" = some (Val.bool b)) := by
  constructor
  · simp only [upload_document]
    split
    · exact ⟨false, by simp [dget]⟩
    · split
      · exact ⟨false, by simp [dget]⟩
      · split
        · exact ⟨false, by simp [dget]⟩
        · exact ⟨true, by simp [dget]⟩
  · rcases validate_file_cases env cfg p with ⟨_, hv⟩ | ⟨st, _, _, hv⟩ |
      ⟨st, _, _, _, hv⟩ | ⟨st, _, _, _, hv⟩
    · exact ⟨false, by rw [hv]; simp [dget]⟩
    · exact ⟨false, by rw [hv]; simp [dget]⟩
    · exact ⟨false, by rw [hv]; simp [dget]⟩
    · exact ⟨true, by rw [hv]; simp [dget]⟩

/-- C3: when validation fails, `upload_document` returns `success=false`
with the validation error passed through verbatim, and performs no external
call at all: the trace is empty, so neither the S3 client nor the database
is ever invoked. -/
theorem c3_validation_failure_short_circuits (env : Env) (cfg : Config) (p u : String)
    (hval : dget (validate_file env cfg p) "valid" ≠ some (Val.bool true)) :
    (upload_document env cfg p u).1
      = [("success", Val.bool false),
         ("error", (dget (validate_file env cfg p) "error").getD Val.null)]
    ∧ dget (upload_document env cfg p u).1 "error" = dget (validate_file env cfg p) "error"
    ∧ (upload_document env cfg p u).2 = [] := by
  rcases validate_file_cases env cfg p with ⟨hfs, hv⟩ | ⟨st, hfs, hext, hv⟩ |
    ⟨st, hfs, hext, hsz, hv⟩ | ⟨st, hfs, hext, hsz, hv⟩
  · refine ⟨?_, ?_, ?_⟩ <;> simp [upload_document, hv, dget]
  · refine ⟨?_, ?_, ?_⟩ <;> simp [upload_document, hv, dget]
  · refine ⟨?_, ?_, ?_⟩ <;> simp [upload_document, hv, dget]
  · exfalso
    apply hval
    rw [hv]
    simp [dget]

/-- C2: when the S3 upload step fails (either exception branch), the
database layer is never invoked — the trace holds exactly the one failed
put and no insert — and `upload_document` returns `success=false` carrying
the storage error string. -/
theorem c2_storage_failure_stops_pipeline (env : Env) (cfg : Config)
    (p u e : String) (st : Entry)
    (hfs : env.fs (pyPathStr p) = some st)
    (hext : pyLower (pathSuffix p) ∈ cfg.SUPPORTED_EXTENSIONS)
    (hsize : st.st_size ≤ cfg.MAX_FILE_SIZE)
    (hs3 : (env.s3Upload p (generated_key env cfg p)).errStr = some e) :
    dget (upload_document env cfg p u).1 "success" = some (Val.bool false)
    ∧ dget (upload_document env cfg p u).1 "error" = some (Val.str e)
    ∧ (upload_document env cfg p u).2 = [Event.s3Put p (generated_key env cfg p)]
    ∧ (upload_document env cfg p u).2.countP isInsert = 0 := by
  have hv := validate_file_success env cfg p st hfs hext hsize
  cases hs3c : env.s3Upload p (generated_key env cfg p) with
  | ok =>
    rw [hs3c] at hs3
    simp [S3Outcome.errStr] at hs3
  | clientError m =>
    rw [hs3c] at hs3
    simp only [S3Outcome.errStr, Option.some.injEq] at hs3
    subst hs3
    refine ⟨?_, ?_, ?_, ?_⟩ <;>
      simp [upload_document, upload_to_s3, hv, hs3c, dget, isInsert]
  | otherError m =>
    rw [hs3c] at hs3
    simp only [S3Outcome.errStr, Option.some.injEq] at hs3
    subst hs3
    refine ⟨?_, ?_, ?_, ?_⟩ <;>
      simp [upload_document, upload_to_s3, hv, hs3c, dget, isInsert]

/-- C1 counterexample: an upload in which the S3 put succeeds and the INSERT
fails.  The premises of the claim hold (put succeeded: the claim's scenario
is reached, the insert was attempted and failed, the result is
`success=false`), yet `BlobStore.delete` is not invoked exactly once with
the put's key — it is invoked zero times: the code performs no compensating
delete at all. -/
theorem c1_counterexample :
    envDbFail.s3Upload "docs/a.pdf" (generated_key envDbFail cfgD "docs/a.pdf")
        = S3Outcome.ok
    ∧ envDbFail.db = DbOutcome.execError "duplicate key"
    ∧ (upload_document envDbFail cfgD "docs/a.pdf" "user123").2.countP isInsert = 1
    ∧ dget (upload_document envDbFail cfgD "docs/a.pdf" "user123").1 "success"
        = some (Val.bool false)
    ∧ ¬ ((upload_document envDbFail cfgD "docs/a.pdf" "user123").2.countP isDelete
        = 1) := by
  decide

/-- C1 (amended): when the S3 put succeeds but the metadata write fails
(either while connecting or while inserting), `upload_document` returns
`success=false` carrying the repository error, and `BlobStore.delete` is
never invoked — the code contains no compensating delete. -/
theorem c1_no_compensating_delete (env : Env) (cfg : Config) (p u m : String)
    (st : Entry)
    (hfs : env.fs (pyPathStr p) = some st)
    (hext : pyLower (pathSuffix p) ∈ cfg.SUPPORTED_EXTENSIONS)
    (hsize : st.st_size ≤ cfg.MAX_FILE_SIZE)
    (hs3 : env.s3Upload p (generated_key env cfg p) = S3Outcome.ok)
    (hdb : env.db.errMsg = some m) :
    dget (upload_document env cfg p u).1 "success" = some (Val.bool false)
    ∧ dget (upload_document env cfg p u).1 "error"
        = some (Val.str ("Database error: " ++ m))
    ∧ (upload_document env cfg p u).2.countP isDelete = 0 := by
  have hv := validate_file_success env cfg p st hfs hext hsize
  cases hdbc : env.db with
  | ok =>
    rw [hdbc] at hdb
    simp [DbOutcome.errMsg] at hdb
  | connectError m' =>
    rw [hdbc] at hdb
    simp only [DbOutcome.errMsg, Option.some.injEq] at hdb
    subst hdb
    refine ⟨?_, ?_, ?_⟩ <;>
      simp [upload_document, upload_to_s3, save_to_database, hv, hs3, hdbc,
        dget, Val.pyStr, isDelete]
  | execError m' =>
    rw [hdbc] at hdb
    simp only [DbOutcome.errMsg, Option.some.injEq] at hdb
    subst hdb
    refine ⟨?_, ?_, ?_⟩ <;>
      simp [upload_document, upload_to_s3, save_to_database, hv, hs3, hdbc,
        dget, Val.pyStr, isDelete]

/-- C4 counterexample: `adir.pdf` names a directory — no regular file exists
at the path — yet `validate_file` does not fail with the `NotFound` error:
it validates the path successfully, because the code checks `Path.exists()`,
which is true for a directory. -/
theorem c4_counterexample :
    envD.fs (pyPathStr "adir.pdf")
        = some { isRegularFile := false, st_size := 4096 }
    ∧ dget (validate_file envD cfgD "adir.pdf") "valid" = some (Val.bool true)
    ∧ dget (validate_file envD cfgD "adir.pdf") "error" = Option.none := by
  decide

/-- C4 (amended): `validate_file` fails with the `NotFound` error exactly
when nothing at all exists at the path; an existing directory passes the
existence check (the code tests `exists()`, not `is_file()`), so it is never
rejected with `NotFound`. -/
theorem c4_not_found_iff_nothing_exists (env : Env) (cfg : Config) (p : String) :
    (env.fs (pyPathStr p) = Option.none →
      validate_file env cfg p
        = [("valid", Val.bool false), ("error", Val.str notFoundMsg)])
    ∧ (∀ st, env.fs (pyPathStr p) = some st →
      dget (validate_file env cfg p) "error" ≠ some (Val.str notFoundMsg)) := by
  constructor
  · intro hfs
    unfold validate_file
    rw [hfs]
  · intro st hfs
    rcases validate_file_cases env cfg p with ⟨hfs2, hv⟩ | ⟨st2, hfs2, hext, hv⟩ |
      ⟨st2, hfs2, hext, hsz, hv⟩ | ⟨st2, hfs2, hext, hsz, hv⟩
    · rw [hfs] at hfs2
      exact absurd hfs2 (by simp)
    · rw [hv]
      simp [dget]
      exact unsupportedMsg_ne_notFound _
    · rw [hv]
      simp [dget]
      exact tooLargeMsg_ne_notFound _ _
    · rw [hv]
      simp [dget]

/-- Once validation succeeds, the first external event of the run is always
the S3 put with the generated key, whatever the S3 and database outcomes. -/
theorem upload_trace_head_of_success (env : Env) (cfg : Config) (p u : String)
    (st : Entry)
    (hfs : env.fs (pyPathStr p) = some st)
    (hext : pyLower (pathSuffix p) ∈ cfg.SUPPORTED_EXTENSIONS)
    (hsize : st.st_size ≤ cfg.MAX_FILE_SIZE) :
    (upload_document env cfg p u).2.head?
      = some (Event.s3Put p (generated_key env cfg p)) := by
  have hv := validate_file_success env cfg p st hfs hext hsize
  cases hs3c : env.s3Upload p (generated_key env cfg p) <;>
    cases hdbc : env.db <;>
      simp [upload_document, upload_to_s3, save_to_database, hv, hs3c, hdbc,
        dget, Val.pyStr]

/-- C5: the size comparison of `validate_file` is the strict `>`: an
existing file with a supported extension is rejected with the `TooLarge`
error exactly when its size exceeds the configured maximum by at least one
byte, and at the boundary (size equal to the maximum) validation succeeds
and the pipeline goes on to perform its S3 put. -/
theorem c5_size_check_strict (env : Env) (cfg : Config) (p : String) (st : Entry)
    (hfs : env.fs (pyPathStr p) = some st)
    (hext : pyLower (pathSuffix p) ∈ cfg.SUPPORTED_EXTENSIONS) :
    (cfg.MAX_FILE_SIZE < st.st_size →
      validate_file env cfg p
        = [("valid", Val.bool false),
           ("error", Val.str (tooLargeMsg cfg.MAX_FILE_SIZE st.st_size))])
    ∧ (st.st_size = cfg.MAX_FILE_SIZE →
      dget (validate_file env cfg p) "valid" = some (Val.bool true)
      ∧ ∀ u, (upload_document env cfg p u).2.head?
          = some (Event.s3Put p (generated_key env cfg p))) := by
  constructor
  · intro hsz
    unfold validate_file
    rw [hfs]
    simp [hext, hsz]
  · intro hsz
    have hle : st.st_size ≤ cfg.MAX_FILE_SIZE := Nat.le_of_eq hsz
    constructor
    · rw [validate_file_success env cfg p st hfs hext hle]
      simp [dget]
    · intro u
      exact upload_trace_head_of_success env cfg p u st hfs hext hle

/-- C6 counterexample: with `SUPPORTED_EXTENSIONS=.PDF` the allow-set the
specification describes (entries normalised to lowercase) contains `.pdf`,
and the file's lowercased extension is `.pdf`, so by the claim validation
must not fail with `UnsupportedFormat` — but the code, which never
normalises the configured entries, rejects the file as unsupported. -/
theorem c6_counterexample :
    ".pdf" ∈ claimAllowSet cfgUpper
    ∧ pyLower (pathSuffix "docs/a.pdf") = ".pdf"
    ∧ validate_file envD cfgUpper "docs/a.pdf"
        = [("valid", Val.bool false),
           ("error", Val.str (unsupportedMsg cfgUpper.SUPPORTED_EXTENSIONS))] := by
  decide

/-- C6 (amended): the configured allow-set is the comma-separated
`SUPPORTED_EXTENSIONS` value split verbatim, with no normalisation of the
entries; for an existing file, `validate_file` fails with `UnsupportedFormat`
exactly when the lowercased file extension is not literally in that raw set
(so matching is case-insensitive in the file name only, not in the
configured entries). -/
theorem c6_extension_check_raw_set (env : Env) (cfg : Config) (p : String)
    (st : Entry)
    (hfs : env.fs (pyPathStr p) = some st) :
    (pyLower (pathSuffix p) ∉ cfg.SUPPORTED_EXTENSIONS →
      validate_file env cfg p
        = [("valid", Val.bool false),
           ("error", Val.str (unsupportedMsg cfg.SUPPORTED_EXTENSIONS))])
    ∧ (pyLower (pathSuffix p) ∈ cfg.SUPPORTED_EXTENSIONS →
      validate_file env cfg p
        = [("valid", Val.bool false),
           ("error", Val.str (tooLargeMsg cfg.MAX_FILE_SIZE st.st_size))]
      ∨ dget (validate_file env cfg p) "valid" = some (Val.bool true)) := by
  constructor
  · intro hext
    unfold validate_file
    rw [hfs]
    simp [hext]
  · intro hext
    by_cases hsz : st.st_size > cfg.MAX_FILE_SIZE
    · left
      unfold validate_file
      rw [hfs]
      simp [hext, hsz]
    · right
      rw [validate_file_success env cfg p st hfs hext (Nat.not_lt.mp hsz)]
      simp [dget]

/-- C7: the storage key is the fresh UUID draw concatenated with the
validated lowercased extension, and it depends on the caller-supplied path
only through that extension: two validated paths with the same lowercased
suffix produce the same key under the same UUID draw, and the key the put
actually uses is exactly this one. -/
theorem c7_storage_key_shape (env : Env) (cfg : Config) (p q u : String)
    (st st' : Entry)
    (hfs : env.fs (pyPathStr p) = some st)
    (hext : pyLower (pathSuffix p) ∈ cfg.SUPPORTED_EXTENSIONS)
    (hsize : st.st_size ≤ cfg.MAX_FILE_SIZE)
    (hfs' : env.fs (pyPathStr q) = some st')
    (hext' : pyLower (pathSuffix q) ∈ cfg.SUPPORTED_EXTENSIONS)
    (hsize' : st'.st_size ≤ cfg.MAX_FILE_SIZE)
    (hsuffix : pyLower (pathSuffix p) = pyLower (pathSuffix q)) :
    generated_key env cfg p = env.uuidKey ++ pyLower (pathSuffix p)
    ∧ generated_key env cfg p = generated_key env cfg q
    ∧ (upload_document env cfg p u).2.head?
        = some (Event.s3Put p (generated_key env cfg p)) := by
  have hk := generated_key_of_success env cfg p st hfs hext hsize
  have hk' := generated_key_of_success env cfg q st' hfs' hext' hsize'
  refine ⟨hk, ?_, upload_trace_head_of_success env cfg p u st hfs hext hsize⟩
  rw [hk, hk', hsuffix]

/-- C8: on a fully successful upload the INSERT carries status `uploaded`,
the fresh `document_id` UUID draw, the caller-supplied user id, the
file name, extension, size and MIME type exactly as the validation
dictionary recorded them, and the S3 URL the blob store returned; the
result handed to the caller holds that same `document_id`, that file name
and that URL with `success=true`. -/
theorem c8_success_record_and_result (env : Env) (cfg : Config) (p u : String)
    (st : Entry)
    (hfs : env.fs (pyPathStr p) = some st)
    (hext : pyLower (pathSuffix p) ∈ cfg.SUPPORTED_EXTENSIONS)
    (hsize : st.st_size ≤ cfg.MAX_FILE_SIZE)
    (hs3 : env.s3Upload p (env.uuidKey ++ pyLower (pathSuffix p)) = S3Outcome.ok)
    (hdb : env.db = DbOutcome.ok) :
    upload_document env cfg p u
      = ([("success", Val.bool true),
          ("document_id", Val.str env.uuidDoc),
          ("file_name", Val.str (pathName p)),
          ("s3_url", Val.str (s3UrlOf cfg (env.uuidKey ++ pyLower (pathSuffix p)))),
          ("message", Val.str "Document uploaded successfully")],
         [Event.s3Put p (env.uuidKey ++ pyLower (pathSuffix p)),
          Event.dbInsert
            { document_id := env.uuidDoc
              user_id := u
              file_name := Val.str (pathName p)
              file_extension := Val.str (pyLower (pathSuffix p))
              file_size := Val.nat st.st_size
              mime_type := optStrVal (env.guessMime (pyPathStr p))
              s3_url := s3UrlOf cfg (env.uuidKey ++ pyLower (pathSuffix p))
              upload_date := env.now
              status := "uploaded" }]) := by
  have hv := validate_file_success env cfg p st hfs hext hsize
  have hk := generated_key_of_success env cfg p st hfs hext hsize
  simp [upload_document, upload_to_s3, save_to_database, mkRecord, hv, hk,
    hs3, hdb, dget, Val.pyStr]

/-- C9: every terminal outcome of `upload_document` is well formed: either
`success=false` together with a non-empty error string, or `success=true`
with non-empty `document_id`, `file_name` and `s3_url`.  The two premises
record facts about any real invocation: `str(uuid.uuid4())` is never the
empty string, and a path whose content S3 accepts has a non-empty final
component (a directory cannot be uploaded). -/
theorem c9_results_well_formed (env : Env) (cfg : Config) (p u : String)
    (hdoc : env.uuidDoc ≠ "") (hname : pathName p ≠ "") :
    (dget (upload_document env cfg p u).1 "success" = some (Val.bool false)
      ∧ ∃ e, dget (upload_document env cfg p u).1 "error" = some (Val.str e)
          ∧ e ≠ "")
    ∨ (dget (upload_document env cfg p u).1 "success" = some (Val.bool true)
      ∧ ∃ d f s,
          dget (upload_document env cfg p u).1 "document_id" = some (Val.str d)
          ∧ d ≠ ""
          ∧ dget (upload_document env cfg p u).1 "file_name" = some (Val.str f)
          ∧ f ≠ ""
          ∧ dget (upload_document env cfg p u).1 "s3_url" = some (Val.str s)
          ∧ s ≠ "") := by
  rcases validate_file_cases env cfg p with ⟨hfs, hv⟩ | ⟨st, hfs, hext, hv⟩ |
    ⟨st, hfs, hext, hsz, hv⟩ | ⟨st, hfs, hext, hsz, hv⟩
  · left
    refine ⟨by simp [upload_document, hv, dget], notFoundMsg,
      by simp [upload_document, hv, dget], by decide⟩
  · left
    refine ⟨by simp [upload_document, hv, dget],
      unsupportedMsg cfg.SUPPORTED_EXTENSIONS,
      by simp [upload_document, hv, dget], unsupportedMsg_ne_empty _⟩
  · left
    refine ⟨by simp [upload_document, hv, dget],
      tooLargeMsg cfg.MAX_FILE_SIZE st.st_size,
      by simp [upload_document, hv, dget], tooLargeMsg_ne_empty _ _⟩
  · cases hs3c : env.s3Upload p (generated_key env cfg p) with
    | clientError m =>
      left
      refine ⟨?_, "S3 upload error: " ++ m, ?_, append_ne_empty _ _ (by decide)⟩ <;>
        simp [upload_document, upload_to_s3, hv, hs3c, dget]
    | otherError m =>
      left
      refine ⟨?_, "Upload error: " ++ m, ?_, append_ne_empty _ _ (by decide)⟩ <;>
        simp [upload_document, upload_to_s3, hv, hs3c, dget]
    | ok =>
      cases hdbc : env.db with
      | connectError m =>
        left
        refine ⟨?_, "Database error: " ++ m, ?_, append_ne_empty _ _ (by decide)⟩ <;>
          simp [upload_document, upload_to_s3, save_to_database, hv, hs3c,
            hdbc, dget, Val.pyStr]
      | execError m =>
        left
        refine ⟨?_, "Database error: " ++ m, ?_, append_ne_empty _ _ (by decide)⟩ <;>
          simp [upload_document, upload_to_s3, save_to_database, hv, hs3c,
            hdbc, dget, Val.pyStr]
      | ok =>
        right
        refine ⟨?_, env.uuidDoc, pathName p, s3UrlOf cfg (generated_key env cfg p),
          ?_, hdoc, ?_, hname, ?_, s3UrlOf_ne_empty _ _⟩ <;>
          simp [upload_document, upload_to_s3, save_to_database, hv, hs3c,
            hdbc, dget, Val.pyStr]

theorem c1_witness :
    (envDbFail.fs (pyPathStr "docs/a.pdf")
        = some { isRegularFile := true, st_size := 1024 }
     ∧ pyLower (pathSuffix "docs/a.pdf") ∈ cfgD.SUPPORTED_EXTENSIONS
     ∧ (1024 : Nat) ≤ cfgD.MAX_FILE_SIZE
     ∧ envDbFail.s3Upload "docs/a.pdf" (generated_key envDbFail cfgD "docs/a.pdf")
        = S3Outcome.ok
     ∧ envDbFail.db.errMsg = some "duplicate key")
    ∧ (dget (upload_document envDbFail cfgD "docs/a.pdf" "user123").1 "success"
        = some (Val.bool false)
     ∧ dget (upload_document envDbFail cfgD "docs/a.pdf" "user123").1 "error"
        = some (Val.str ("Database error: " ++ "duplicate key"))
     ∧ (upload_document envDbFail cfgD "docs/a.pdf" "user123").2.countP isDelete
        = 0) :=
  ⟨⟨by decide, by decide, by decide, by decide, by decide⟩,
   c1_no_compensating_delete envDbFail cfgD "docs/a.pdf" "user123" "duplicate key"
     { isRegularFile := true, st_size := 1024 }
     (by decide) (by decide) (by decide) (by decide) (by decide)⟩

theorem c2_witness :
    (envS3Fail.fs (pyPathStr "docs/a.pdf")
        = some { isRegularFile := true, st_size := 1024 }
     ∧ pyLower (pathSuffix "docs/a.pdf") ∈ cfgD.SUPPORTED_EXTENSIONS
     ∧ (1024 : Nat) ≤ cfgD.MAX_FILE_SIZE
     ∧ (envS3Fail.s3Upload "docs/a.pdf"
          (generated_key envS3Fail cfgD "docs/a.pdf")).errStr
        = some ("S3 upload error: " ++ "AccessDenied"))
    ∧ (dget (upload_document envS3Fail cfgD "docs/a.pdf" "user123").1 "success"
        = some (Val.bool false)
     ∧ dget (upload_document envS3Fail cfgD "docs/a.pdf" "user123").1 "error"
        = some (Val.str ("S3 upload error: " ++ "AccessDenied"))
     ∧ (upload_document envS3Fail cfgD "docs/a.pdf" "user123").2
        = [Event.s3Put "docs/a.pdf" (generated_key envS3Fail cfgD "docs/a.pdf")]
     ∧ (upload_document envS3Fail cfgD "docs/a.pdf" "user123").2.countP isInsert
        = 0) :=
  ⟨⟨by decide, by decide, by decide, by decide⟩,
   c2_storage_failure_stops_pipeline envS3Fail cfgD "docs/a.pdf" "user123"
     ("S3 upload error: " ++ "AccessDenied")
     { isRegularFile := true, st_size := 1024 }
     (by decide) (by decide) (by decide) (by decide)⟩

theorem c3_witness :
    dget (validate_file envD cfgD "missing.pdf") "valid" ≠ some (Val.bool true)
    ∧ ((upload_document envD cfgD "missing.pdf" "user123").1
        = [("success", Val.bool false),
           ("error", (dget (validate_file envD cfgD "missing.pdf") "error").getD
              Val.null)]
      ∧ dget (upload_document envD cfgD "missing.pdf" "user123").1 "error"
          = dget (validate_file envD cfgD "missing.pdf") "error"
      ∧ (upload_document envD cfgD "missing.pdf" "user123").2 = []) :=
  ⟨by decide,
   c3_validation_failure_short_circuits envD cfgD "missing.pdf" "user123"
     (by decide)⟩

theorem c4_witness :
    (envD.fs (pyPathStr "missing.pdf") = Option.none
     ∧ validate_file envD cfgD "missing.pdf"
        = [("valid", Val.bool false), ("error", Val.str notFoundMsg)])
    ∧ (envD.fs (pyPathStr "adir.pdf")
        = some { isRegularFile := false, st_size := 4096 }
     ∧ dget (validate_file envD cfgD "adir.pdf") "error"
        ≠ some (Val.str notFoundMsg)) :=
  ⟨⟨by decide,
    (c4_not_found_iff_nothing_exists envD cfgD "missing.pdf").1 (by decide)⟩,
   ⟨by decide,
    (c4_not_found_iff_nothing_exists envD cfgD "adir.pdf").2
      { isRegularFile := false, st_size := 4096 } (by decide)⟩⟩

theorem c5_witness :
    (cfgD.MAX_FILE_SIZE < (52428801 : Nat)
     ∧ validate_file envD cfgD "docs/big.pdf"
        = [("valid", Val.bool false),
           ("error", Val.str (tooLargeMsg cfgD.MAX_FILE_SIZE 52428801))])
    ∧ ((52428800 : Nat) = cfgD.MAX_FILE_SIZE
     ∧ dget (validate_file envD cfgD "docs/max.pdf") "valid"
        = some (Val.bool true)) :=
  ⟨⟨by decide,
    (c5_size_check_strict envD cfgD "docs/big.pdf"
      { isRegularFile := true, st_size := 52428801 }
      (by decide) (by decide)).1 (by decide)⟩,
   ⟨by decide,
    ((c5_size_check_strict envD cfgD "docs/max.pdf"
      { isRegularFile := true, st_size := 52428800 }
      (by decide) (by decide)).2 (by decide)).1⟩⟩

theorem c6_witness :
    (pyLower (pathSuffix "docs/a.pdf") ∉ cfgUpper.SUPPORTED_EXTENSIONS
     ∧ validate_file envD cfgUpper "docs/a.pdf"
        = [("valid", Val.bool false),
           ("error", Val.str (unsupportedMsg cfgUpper.SUPPORTED_EXTENSIONS))])
    ∧ (pyLower (pathSuffix "docs/a.pdf") ∈ cfgD.SUPPORTED_EXTENSIONS
     ∧ (validate_file envD cfgD "docs/a.pdf"
          = [("valid", Val.bool false),
             ("error", Val.str (tooLargeMsg cfgD.MAX_FILE_SIZE 1024))]
        ∨ dget (validate_file envD cfgD "docs/a.pdf") "valid"
          = some (Val.bool true))) :=
  ⟨⟨by decide,
    (c6_extension_check_raw_set envD cfgUpper "docs/a.pdf"
      { isRegularFile := true, st_size := 1024 } (by decide)).1 (by decide)⟩,
   ⟨by decide,
    (c6_extension_check_raw_set envD cfgD "docs/a.pdf"
      { isRegularFile := true, st_size := 1024 } (by decide)).2 (by decide)⟩⟩

theorem c7_witness :
    (envD.fs (pyPathStr "docs/a.pdf")
        = some { isRegularFile := true, st_size := 1024 }
     ∧ pyLower (pathSuffix "docs/a.pdf") ∈ cfgD.SUPPORTED_EXTENSIONS
     ∧ envD.fs (pyPathStr "docs/max.pdf")
        = some { isRegularFile := true, st_size := 52428800 }
     ∧ pyLower (pathSuffix "docs/a.pdf") = pyLower (pathSuffix "docs/max.pdf"))
    ∧ (generated_key envD cfgD "docs/a.pdf"
        = envD.uuidKey ++ pyLower (pathSuffix "docs/a.pdf")
     ∧ generated_key envD cfgD "docs/a.pdf" = generated_key envD cfgD "docs/max.pdf"
     ∧ (upload_document envD cfgD "docs/a.pdf" "user123").2.head?
        = some (Event.s3Put "docs/a.pdf" (generated_key envD cfgD "docs/a.pdf"))) :=
  ⟨⟨by decide, by decide, by decide, by decide⟩,
   c7_storage_key_shape envD cfgD "docs/a.pdf" "docs/max.pdf" "user123"
     { isRegularFile := true, st_size := 1024 }
     { isRegularFile := true, st_size := 52428800 }
     (by decide) (by decide) (by decide) (by decide) (by decide) (by decide)
     (by decide)⟩

theorem c8_witness :
    (envD.s3Upload "docs/a.pdf" (envD.uuidKey ++ pyLower (pathSuffix "docs/a.pdf"))
        = S3Outcome.ok
     ∧ envD.db = DbOutcome.ok)
    ∧ upload_document envD cfgD "docs/a.pdf" "user123"
      = ([("success", Val.bool true),
          ("document_id", Val.str envD.uuidDoc),
          ("file_name", Val.str (pathName "docs/a.pdf")),
          ("s3_url", Val.str (s3UrlOf cfgD
            (envD.uuidKey ++ pyLower (pathSuffix "docs/a.pdf")))),
          ("message", Val.str "Document uploaded successfully")],
         [Event.s3Put "docs/a.pdf"
            (envD.uuidKey ++ pyLower (pathSuffix "docs/a.pdf")),
          Event.dbInsert
            { document_id := envD.uuidDoc
              user_id := "user123"
              file_name := Val.str (pathName "docs/a.pdf")
              file_extension := Val.str (pyLower (pathSuffix "docs/a.pdf"))
              file_size := Val.nat 1024
              mime_type := optStrVal (envD.guessMime (pyPathStr "docs/a.pdf"))
              s3_url := s3UrlOf cfgD
                (envD.uuidKey ++ pyLower (pathSuffix "docs/a.pdf"))
              upload_date := envD.now
              status := "uploaded" }]) :=
  ⟨⟨by decide, by decide⟩,
   c8_success_record_and_result envD cfgD "docs/a.pdf" "user123"
     { isRegularFile := true, st_size := 1024 }
     (by decide) (by decide) (by decide) (by decide) (by decide)⟩

theorem c9_witness :
    (envD.uuidDoc ≠ "" ∧ pathName "docs/a.pdf" ≠ "")
    ∧ ((dget (upload_document envD cfgD "docs/a.pdf" "user123").1 "success"
          = some (Val.bool false)
        ∧ ∃ e, dget (upload_document envD cfgD "docs/a.pdf" "user123").1 "error"
            = some (Val.str e) ∧ e ≠ "")
      ∨ (dget (upload_document envD cfgD "docs/a.pdf" "user123").1 "success"
          = some (Val.bool true)
        ∧ ∃ d f s,
            dget (upload_document envD cfgD "docs/a.pdf" "user123").1 "document_id"
              = some (Val.str d)
            ∧ d ≠ ""
            ∧ dget (upload_document envD cfgD "docs/a.pdf" "user123").1 "file_name"
              = some (Val.str f)
            ∧ f ≠ ""
            ∧ dget (upload_document envD cfgD "docs/a.pdf" "user123").1 "s3_url"
              = some (Val.str s)
            ∧ s ≠ "")) :=
  ⟨⟨by decide, by decide⟩,
   c9_results_well_formed envD cfgD "docs/a.pdf" "user123" (by decide) (by decide)⟩
